import Mathlib

/-!
Shallow embedding of the SOCKS5 proxy server (auth.py, handlers.py,
socks5_server.py, server.py, protocol.py) and proofs about it.

Byte strings are modelled as `List Nat` (each entry a byte value).
Network effects are made explicit: a function that reads one inbound
frame takes that frame as an argument, and a function that writes
frames returns the list of frames it sent, in order.  Socket close and
relay actions are recorded as booleans / event lists.
-/

/-! ## Protocol constants (protocol.py) -/

def SOCKS_VERSION : Nat := 0x05

def NO_AUTH : Nat := 0x00

def USERNAME_PASSWORD : Nat := 0x02

def NO_ACCEPTABLE_METHODS : Nat := 0xFF

def AUTH_SUCCESS : Nat := 0x00

def AUTH_FAILURE : Nat := 0x01

def CMD_CONNECT : Nat := 0x01

def ATYP_IPV4 : Nat := 0x01

def ATYP_DOMAIN : Nat := 0x03

def ATYP_IPV6 : Nat := 0x04

def REP_SUCCESS : Nat := 0x00

def REP_GENERAL_FAILURE : Nat := 0x01

def REP_HOST_UNREACHABLE : Nat := 0x04

def REP_CONNECTION_REFUSED : Nat := 0x05

def REP_COMMAND_NOT_SUPPORTED : Nat := 0x07

def REP_ADDRESS_TYPE_NOT_SUPPORTED : Nat := 0x08

def RESERVED : Nat := 0x00

/-! ## Authentication manager (auth.py) -/

/-- `AuthenticationManager.authenticate` from auth.py.  The user store
`self.users` (a dict with unique keys) is modelled as an association
list; `lookup` is the dict access.  The definition is polymorphic in
the credential type so it can be used both on `String` credentials
(auth.py operates on `str`) and on raw byte strings (the handler in
handlers.py compares the decoded bytes of the wire frame; the UTF-8
text decode, injective on the ASCII credentials at issue, is elided).
Empty store: authentication is disabled and always succeeds.  -/
def authenticate {α : Type} [BEq α] (users : List (α × α)) (username password : α) : Bool :=
  if users.isEmpty then
    true
  else
    match users.lookup username with
    | none => false
    | some pw => pw == password

/-- `AuthenticationManager.has_users` from auth.py: `len(self.users) > 0`. -/
def has_users {α : Type} (users : List (α × α)) : Bool :=
  decide (0 < users.length)

/-! ## Handshake (handlers.py, perform_handshake) -/

/-- The server-supported method list built in perform_handshake:
`[NO_AUTH]`, plus `USERNAME_PASSWORD` iff the auth manager has users. -/
def server_methods (hasUsers : Bool) : List Nat :=
  [NO_AUTH] ++ (if hasUsers then [USERNAME_PASSWORD] else [])

/-- The client-offered method list extracted in perform_handshake:
`methods = list(data[2:2 + nmethods])` with `nmethods = data[1]`.
Python slicing silently stops at the end of `data` when fewer than
`nmethods` bytes are present. -/
def client_methods (data : List Nat) : List Nat :=
  (data.drop 2).take (data.getD 1 0)

/-- The method-selection loop of perform_handshake: sort the offered
methods in descending order (`methods.sort(reverse=True)`) and take the
first one that the server supports. -/
def select_method (methods : List Nat) (supported : List Nat) : Option Nat :=
  (List.insertionSort (· ≥ ·) methods).find? (fun m => supported.contains m)

/-- The tail of perform_handshake after the length and version checks:
select a method among `methods`; send `(5, 0xFF)` and fail when there
is none, else send `(5, m)` and succeed with the selected method.
Result: (frames sent, (handshake_success, selected_method)). -/
def negotiate_methods (methods : List Nat) (hasUsers : Bool) :
    List (List Nat) × (Bool × Option Nat) :=
  match select_method methods (server_methods hasUsers) with
  | none => ([[SOCKS_VERSION, NO_ACCEPTABLE_METHODS]], (false, none))
  | some m => ([[SOCKS_VERSION, m]], (true, some m))

/-- `perform_handshake` from handlers.py.  `data` is the greeting the
single `recv` returned and `hasUsers` is `auth_manager.has_users()`
(`false` also covers `auth_manager is None`).  Returns the frames sent
and the `(handshake_success, selected_method)` pair of the source. -/
def perform_handshake (data : List Nat) (hasUsers : Bool) :
    List (List Nat) × (Bool × Option Nat) :=
  if data.length < 3 then ([], (false, none))
  else if data.getD 0 0 ≠ SOCKS_VERSION then ([], (false, none))
  else negotiate_methods (client_methods data) hasUsers

/-! ## Helper lemmas about sorted selection -/

lemma find?_sorted_ge_is_max {p : Nat → Bool} :
    ∀ {l : List Nat}, List.Sorted (· ≥ ·) l → ∀ {m : Nat}, l.find? p = some m →
      ∀ y ∈ l, p y = true → y ≤ m := by
  intro l
  induction l with
  | nil => intro _ m h; simp [List.find?] at h
  | cons a t ih =>
      intro hs m hfind y hy hpy
      rw [List.sorted_cons] at hs
      by_cases hpa : p a
      · rw [List.find?_cons_of_pos _ hpa] at hfind
        cases hfind
        rcases List.mem_cons.mp hy with h | h
        · exact le_of_eq h
        · exact hs.1 y h
      · rw [List.find?_cons_of_neg _ hpa] at hfind
        rcases List.mem_cons.mp hy with h | h
        · subst h; exact absurd hpy hpa
        · exact ih hs.2 hfind y h hpy

lemma select_method_spec {methods supported : List Nat} {m : Nat}
    (h : select_method methods supported = some m) :
    m ∈ methods ∧ m ∈ supported ∧ ∀ y ∈ methods, y ∈ supported → y ≤ m := by
  unfold select_method at h
  have hperm := List.perm_insertionSort (· ≥ ·) methods
  have hmem : m ∈ methods := hperm.mem_iff.mp (List.mem_of_find?_eq_some h)
  have hsup : m ∈ supported := by
    have := List.find?_some h
    simpa [List.contains, List.elem_iff] using this
  refine ⟨hmem, hsup, ?_⟩
  intro y hy hys
  have hsorted : List.Sorted (· ≥ ·) (List.insertionSort (· ≥ ·) methods) :=
    List.sorted_insertionSort _ _
  exact find?_sorted_ge_is_max hsorted h y (hperm.mem_iff.mpr hy)
    (by simpa [List.contains, List.elem_iff] using hys)

lemma select_method_isSome_iff {methods supported : List Nat} :
    (select_method methods supported).isSome = true ↔
      ∃ y ∈ methods, y ∈ supported := by
  unfold select_method
  have hperm := List.perm_insertionSort (· ≥ ·) methods
  rw [Option.isSome_iff_ne_none]
  constructor
  · intro h
    rcases Option.ne_none_iff_exists.mp h with ⟨m, hm⟩
    rcases select_method_spec (by simpa [select_method] using hm.symm : select_method methods supported = some m) with ⟨h1, h2, _⟩
    exact ⟨m, h1, h2⟩
  · intro ⟨y, hy, hys⟩ hnone
    rw [List.find?_eq_none] at hnone
    exact hnone y (hperm.mem_iff.mpr hy)
      (by simpa [List.contains, List.elem_iff] using hys)

lemma negotiate_methods_success (methods : List Nat) (hasUsers : Bool) :
    (negotiate_methods methods hasUsers).2.1 =
      (select_method methods (server_methods hasUsers)).isSome := by
  unfold negotiate_methods
  rcases select_method methods (server_methods hasUsers) with _ | m <;> rfl

/-! ## Theorems: claims C1, C4, C6 -/

/-- C1: for every well-formed greeting (first byte 5, at least 3 bytes,
at least the declared number of method bytes present) offering at least
one server-supported method, perform_handshake selects the numerically
largest client-offered method code that is also server-supported, sends
the single two-byte frame (0x05, selected code), and returns
(True, selected code). -/
theorem c1_handshake_selects_largest_mutual_method
    (data : List Nat) (hasUsers : Bool)
    (hlen : 3 ≤ data.length)
    (hver : data.getD 0 0 = SOCKS_VERSION)
    (_hdecl : 2 + data.getD 1 0 ≤ data.length)
    (hmutual : ∃ y ∈ client_methods data, y ∈ server_methods hasUsers) :
    ∃ m, perform_handshake data hasUsers = ([[SOCKS_VERSION, m]], (true, some m)) ∧
      m ∈ client_methods data ∧ m ∈ server_methods hasUsers ∧
      ∀ y ∈ client_methods data, y ∈ server_methods hasUsers → y ≤ m := by
  have hsome : (select_method (client_methods data) (server_methods hasUsers)).isSome = true :=
    select_method_isSome_iff.mpr hmutual
  rcases Option.isSome_iff_exists.mp hsome with ⟨m, hm⟩
  rcases select_method_spec hm with ⟨h1, h2, h3⟩
  refine ⟨m, ?_, h1, h2, h3⟩
  unfold perform_handshake
  rw [if_neg (by omega), if_neg (fun h => h hver), negotiate_methods, hm]

/-- Witness for C1 at the concrete input of the claim: the client
offers NoAuth (0x00) and UsernamePassword (0x02), the credential store
is non-empty, and the negotiator picks UsernamePassword. -/
theorem c1_witness :
    ∃ m, perform_handshake [5, 2, 0, 2] true = ([[SOCKS_VERSION, m]], (true, some m)) ∧
      m ∈ client_methods [5, 2, 0, 2] ∧ m ∈ server_methods true ∧
      ∀ y ∈ client_methods [5, 2, 0, 2], y ∈ server_methods true → y ≤ m :=
  c1_handshake_selects_largest_mutual_method [5, 2, 0, 2] true
    (by decide) (by decide) (by decide) ⟨2, by decide, by decide⟩

/-- C4 counterexample: the greeting `[5, 2, 0]` declares 2 method bytes
but carries only 1.  The claim says perform_handshake fails; the code
silently truncates the method list to `[0]` and the handshake succeeds
with NoAuth. -/
theorem c4_counterexample :
    perform_handshake [5, 2, 0] false = ([[5, 0]], (true, some 0)) := by
  decide

/-- C4 amended: for every greeting of at least 3 bytes with version 5
whose declared method count exceeds the number of method bytes present,
perform_handshake does not fail on that account: it proceeds with the
truncated method list (all bytes after index 1), and it succeeds iff
one of the present method bytes is server-supported. -/
theorem c4_truncated_greeting_proceeds
    (data : List Nat) (hasUsers : Bool)
    (hlen : 3 ≤ data.length)
    (hver : data.getD 0 0 = SOCKS_VERSION)
    (htrunc : data.length < 2 + data.getD 1 0) :
    perform_handshake data hasUsers = negotiate_methods (data.drop 2) hasUsers ∧
      ((perform_handshake data hasUsers).2.1 = true ↔
        ∃ y ∈ data.drop 2, y ∈ server_methods hasUsers) := by
  have hcm : client_methods data = data.drop 2 := by
    unfold client_methods
    exact List.take_of_length_le (by rw [List.length_drop]; omega)
  have heq : perform_handshake data hasUsers = negotiate_methods (data.drop 2) hasUsers := by
    unfold perform_handshake
    rw [if_neg (by omega), if_neg (fun h => h hver), hcm]
  refine ⟨heq, ?_⟩
  rw [heq, negotiate_methods_success]
  exact select_method_isSome_iff

/-- Witness for C4 (amended) at the concrete counterexample input. -/
theorem c4_amended_witness :
    perform_handshake [5, 2, 0] false = negotiate_methods ([5, 2, 0].drop 2) false ∧
      ((perform_handshake [5, 2, 0] false).2.1 = true ↔
        ∃ y ∈ [5, 2, 0].drop 2, y ∈ server_methods false) :=
  c4_truncated_greeting_proceeds [5, 2, 0] false (by decide) (by decide) (by decide)

/-- C6: authenticate returns True for every pair when the user map is
empty; when the map is non-empty it returns True iff the map sends the
username to exactly the given password; and the concrete examples of
the claim for the store mapping alice to secret. -/
theorem c6_authenticate_spec :
    (∀ u p : String, authenticate ([] : List (String × String)) u p = true) ∧
    (∀ (users : List (String × String)) (u p : String), users ≠ [] →
      (authenticate users u p = true ↔ users.lookup u = some p)) ∧
    authenticate [("alice", "secret")] "alice" "secret" = true ∧
    authenticate [("alice", "secret")] "alice" "wrong" = false ∧
    authenticate [("alice", "secret")] "bob" "x" = false := by
  refine ⟨fun u p => rfl, ?_, rfl, rfl, rfl⟩
  intro users u p hne
  unfold authenticate
  rw [if_neg (by simpa [List.isEmpty_iff] using hne)]
  rcases hl : users.lookup u with _ | pw
  · simp
  · rw [beq_iff_eq, Option.some_inj]

/-- Witness for C6 at a concrete store: the iff clause instantiated at
the non-empty store of the claim. -/
theorem c6_witness :
    authenticate [("alice", "secret")] "alice" "secret" = true ↔
      List.lookup "alice" [("alice", "secret")] = some "secret" :=
  c6_authenticate_spec.2.1 [("alice", "secret")] "alice" "secret" (List.cons_ne_nil _ _)

/-! ## Replies and request parsing (handlers.py) -/

/-- The 10-byte frame built by `send_reply` in handlers.py: version,
reply code, reserved, ATYP IPv4, bound address 0.0.0.0 (4 zero bytes
from inet_aton), bound port 0 (2 zero bytes).  `send_reply` sends it
best-effort, swallowing send errors. -/
def reply_frame (rep : Nat) : List Nat :=
  [SOCKS_VERSION, rep, RESERVED, ATYP_IPV4, 0, 0, 0, 0, 0, 0]

/-- The 10-byte success reply built inline in `handle_connect`:
version, success, reserved, ATYP IPv4, bind address 0.0.0.0, then the
local port of the outbound socket in big-endian. -/
def success_reply_frame (bindPort : Nat) : List Nat :=
  [SOCKS_VERSION, REP_SUCCESS, RESERVED, ATYP_IPV4, 0, 0, 0, 0,
    bindPort / 256, bindPort % 256]

/-- `parse_request` from handlers.py.  `data` is the request bytes the
single `recv` returned.  Result: the frames sent while parsing (the
unsupported-address-type branch sends an error reply before raising)
and either the `(cmd, atyp, dst_addr, dst_port)` tuple or the message
of the raised exception.  The destination address is kept as the raw
byte slice the source extracts; the textual renderings applied by the
source (inet_ntoa for IPv4, inet_ntop for IPv6, UTF-8 decoding for
domains) are injective on those bytes and are elided.  Reading `data[4]`
on a 4-byte domain request raises an IndexError in the source; that is
modelled as the corresponding error value. -/
def parse_request (data : List Nat) :
    List (List Nat) × Except String (Nat × Nat × List Nat × Nat) :=
  if data.length < 4 then ([], Except.error "Request too short")
  else
    let cmd := data.getD 1 0
    let atyp := data.getD 3 0
    if data.getD 0 0 ≠ SOCKS_VERSION then ([], Except.error "Invalid SOCKS version")
    else if atyp = ATYP_IPV4 then
      if data.length < 10 then ([], Except.error "Incomplete IPv4 request")
      else ([], Except.ok (cmd, atyp, (data.drop 4).take 4,
        256 * data.getD 8 0 + data.getD 9 0))
    else if atyp = ATYP_DOMAIN then
      if data.length < 5 then ([], Except.error "index out of range")
      else
        let addr_len := data.getD 4 0
        if data.length < 5 + addr_len + 2 then ([], Except.error "Incomplete domain request")
        else ([], Except.ok (cmd, atyp, (data.drop 5).take addr_len,
          256 * data.getD (5 + addr_len) 0 + data.getD (6 + addr_len) 0))
    else if atyp = ATYP_IPV6 then
      if data.length < 22 then ([], Except.error "Incomplete IPv6 request")
      else ([], Except.ok (cmd, atyp, (data.drop 4).take 16,
        256 * data.getD 20 0 + data.getD 21 0))
    else
      ([reply_frame REP_ADDRESS_TYPE_NOT_SUPPORTED],
        Except.error "Unsupported address type")

/-! ## Connect handling (handlers.py, server.py) -/

/-- Outcome of `remote_socket.connect((dst_addr, dst_port))` in
`handle_connect`: success carrying the local port of the outbound
socket, or one of the exception classes the source catches
(socket.gaierror, ConnectionRefusedError, anything else). -/
inductive ConnectOutcome
  | ok (bindPort : Nat)
  | dnsFailure
  | refused
  | failure
deriving DecidableEq

/-- The Python modules present among the source files of this
repository.  There is no module named relay, so the statement
`from relay import relay_data` in handlers.py raises
ModuleNotFoundError when reached. -/
def repo_modules : List String :=
  ["auth", "config", "handlers", "main", "manage_user", "protocol", "server",
    "socks5_server"]

/-- Observable effects of `handle_connect` on the client socket:
frames sent, whether the client socket was closed, whether the data
relay was started, and whether an outbound connect was attempted. -/
structure ConnectTrace where
  sends : List (List Nat)
  closed : Bool
  relayStarted : Bool
  connectAttempted : Bool
deriving DecidableEq

/-- `handle_connect` from handlers.py.  On connect success it sends the
success reply and then executes `from relay import relay_data`; when
that import fails (no relay module in the repository) the generic
except branch sends a GeneralFailure reply and closes the client
socket.  Connect failures are mapped: socket.gaierror to
HostUnreachable, ConnectionRefusedError to ConnectionRefused, anything
else to GeneralFailure, each followed by closing the client socket. -/
def handle_connect (outcome : ConnectOutcome) : ConnectTrace :=
  match outcome with
  | .ok bindPort =>
      if repo_modules.contains "relay" then
        { sends := [success_reply_frame bindPort], closed := false,
          relayStarted := true, connectAttempted := true }
      else
        { sends := [success_reply_frame bindPort, reply_frame REP_GENERAL_FAILURE],
          closed := true, relayStarted := false, connectAttempted := true }
  | .dnsFailure =>
      { sends := [reply_frame REP_HOST_UNREACHABLE], closed := true,
        relayStarted := false, connectAttempted := true }
  | .refused =>
      { sends := [reply_frame REP_CONNECTION_REFUSED], closed := true,
        relayStarted := false, connectAttempted := true }
  | .failure =>
      { sends := [reply_frame REP_GENERAL_FAILURE], closed := true,
        relayStarted := false, connectAttempted := true }

/-- The request-handling part of `Socks5Server.handle_client` in
server.py, after a successful handshake: parse the request; on a parse
exception close the client socket (outer except branch); on CONNECT
run `handle_connect` with the outcome of the outbound connect attempt;
on any other command send CommandNotSupported and close. -/
def handle_client_request (data : List Nat) (outcome : ConnectOutcome) : ConnectTrace :=
  match parse_request data with
  | (sent, Except.error _) =>
      { sends := sent, closed := true, relayStarted := false, connectAttempted := false }
  | (sent, Except.ok (cmd, _, _, _)) =>
      if cmd = CMD_CONNECT then
        let t := handle_connect outcome
        { t with sends := sent ++ t.sends }
      else
        { sends := sent ++ [reply_frame REP_COMMAND_NOT_SUPPORTED], closed := true,
          relayStarted := false, connectAttempted := false }

/-! ## Theorems: claims C3, C5, C10 -/

/-- C3: the repository has no module named relay, so on every CONNECT
whose outbound connection succeeds, handle_connect sends the Success
reply, the import of relay_data raises, the generic exception branch
sends a second reply (GeneralFailure, 0x01) on the same client socket,
the client socket is closed, and no bytes are ever relayed on the
modular code path. -/
theorem c3_missing_relay_module_breaks_connect (bindPort : Nat) :
    repo_modules.contains "relay" = false ∧
    handle_connect (ConnectOutcome.ok bindPort) =
      { sends := [success_reply_frame bindPort, reply_frame REP_GENERAL_FAILURE],
        closed := true, relayStarted := false, connectAttempted := true } :=
  ⟨rfl, rfl⟩

/-- C5: outbound-connect failure mapping of handle_connect is exact:
name-resolution failure yields HostUnreachable (0x04), active refusal
yields ConnectionRefused (0x05), any other failure yields
GeneralFailure (0x01); in each case the reply is sent, the client
socket is closed, and the relay is never started. -/
theorem c5_connect_failure_mapping :
    handle_connect ConnectOutcome.dnsFailure =
      { sends := [reply_frame REP_HOST_UNREACHABLE], closed := true,
        relayStarted := false, connectAttempted := true } ∧
    handle_connect ConnectOutcome.refused =
      { sends := [reply_frame REP_CONNECTION_REFUSED], closed := true,
        relayStarted := false, connectAttempted := true } ∧
    handle_connect ConnectOutcome.failure =
      { sends := [reply_frame REP_GENERAL_FAILURE], closed := true,
        relayStarted := false, connectAttempted := true } :=
  ⟨rfl, rfl, rfl⟩

/-- C10: for every request of at least 4 bytes (version 5) whose
address-type byte is none of 0x01, 0x03, 0x04, the server sends the
10-byte reply with code 0x08 and zero bound address and port, closes
the client socket, and never attempts an outbound connection. -/
theorem c10_unsupported_atyp_reply
    (data : List Nat) (outcome : ConnectOutcome)
    (hlen : 4 ≤ data.length)
    (hver : data.getD 0 0 = SOCKS_VERSION)
    (h1 : data.getD 3 0 ≠ ATYP_IPV4)
    (h3 : data.getD 3 0 ≠ ATYP_DOMAIN)
    (h4 : data.getD 3 0 ≠ ATYP_IPV6) :
    handle_client_request data outcome =
      { sends := [reply_frame REP_ADDRESS_TYPE_NOT_SUPPORTED], closed := true,
        relayStarted := false, connectAttempted := false } := by
  have hp : parse_request data =
      ([reply_frame REP_ADDRESS_TYPE_NOT_SUPPORTED],
        Except.error "Unsupported address type") := by
    unfold parse_request
    rw [if_neg (by omega), if_neg (fun h => h hver), if_neg h1, if_neg h3, if_neg h4]
  unfold handle_client_request
  rw [hp]

/-- Witness for C10 at the concrete input of the claim: ATYP = 0x02. -/
theorem c10_witness :
    handle_client_request [5, 1, 0, 2, 0, 0, 0, 0, 0, 0] ConnectOutcome.failure =
      { sends := [reply_frame REP_ADDRESS_TYPE_NOT_SUPPORTED], closed := true,
        relayStarted := false, connectAttempted := false } :=
  c10_unsupported_atyp_reply [5, 1, 0, 2, 0, 0, 0, 0, 0, 0] ConnectOutcome.failure
    (by decide) (by decide) (by decide) (by decide) (by decide)

/-! ## Spec-side request encoders (wire format of the spec, section 6) -/

/-- Spec-side definition: the standard minimal SOCKS5 encoding of a
CONNECT-style request with an IPv4 address, per the wire format of the
spec: version, command, reserved, ATYP 0x01, 4 address bytes, 2-byte
big-endian port.  Used only to state the round-trip claim against
`parse_request`. -/
def encode_request_ipv4 (cmd : Nat) (addr : List Nat) (port : Nat) : List Nat :=
  [SOCKS_VERSION, cmd, RESERVED, ATYP_IPV4] ++ (addr ++ [port / 256, port % 256])

/-- Spec-side definition: the standard minimal encoding of a request
with a length-prefixed domain address, per the wire format of the
spec. -/
def encode_request_domain (cmd : Nat) (name : List Nat) (port : Nat) : List Nat :=
  [SOCKS_VERSION, cmd, RESERVED, ATYP_DOMAIN, name.length] ++
    (name ++ [port / 256, port % 256])

/-- Spec-side definition: the standard minimal encoding of a request
with a 16-byte IPv6 address, per the wire format of the spec. -/
def encode_request_ipv6 (cmd : Nat) (addr : List Nat) (port : Nat) : List Nat :=
  [SOCKS_VERSION, cmd, RESERVED, ATYP_IPV6] ++ (addr ++ [port / 256, port % 256])

/-! ## Theorem: claim C9 -/

/-- C9: for each of the three address types, parse_request applied to
the standard minimal encoding of a request returns exactly the original
(command, address, port) (with the parsed atyp tag); and removing the
final byte from any such minimal request makes parse_request fail with
a decode error instead of returning a value. -/
theorem c9_parse_request_round_trip
    (cmd port : Nat) (ip4 name ip6 : List Nat)
    (h4 : ip4.length = 4) (_hname : name.length ≤ 255) (h16 : ip6.length = 16)
    (_hport : port < 65536) :
    parse_request (encode_request_ipv4 cmd ip4 port) =
      ([], Except.ok (cmd, ATYP_IPV4, ip4, port)) ∧
    parse_request (encode_request_domain cmd name port) =
      ([], Except.ok (cmd, ATYP_DOMAIN, name, port)) ∧
    parse_request (encode_request_ipv6 cmd ip6 port) =
      ([], Except.ok (cmd, ATYP_IPV6, ip6, port)) ∧
    parse_request ((encode_request_ipv4 cmd ip4 port).dropLast) =
      ([], Except.error "Incomplete IPv4 request") ∧
    parse_request ((encode_request_domain cmd name port).dropLast) =
      ([], Except.error "Incomplete domain request") ∧
    parse_request ((encode_request_ipv6 cmd ip6 port).dropLast) =
      ([], Except.error "Incomplete IPv6 request") := by
  have hlen4 : (encode_request_ipv4 cmd ip4 port).length = 10 := by
    simp [encode_request_ipv4, h4]
  have hlen3 : (encode_request_domain cmd name port).length = 7 + name.length := by
    simp [encode_request_domain]; omega
  have hlen6 : (encode_request_ipv6 cmd ip6 port).length = 22 := by
    simp [encode_request_ipv6, h16]
  refine ⟨?_, ?_, ?_, ?_, ?_, ?_⟩
  · -- IPv4 round trip
    have htake : (ip4 ++ [port / 256, port % 256]).take 4 = ip4 := by
      rw [← h4]; exact List.take_left _ _
    have hhi : (ip4 ++ [port / 256, port % 256]).getD 4 0 = port / 256 := by
      rw [← h4, List.getD_append_right _ _ _ _ (le_refl _)]; simp
    have hlo : (ip4 ++ [port / 256, port % 256]).getD 5 0 = port % 256 := by
      rw [List.getD_append_right _ _ _ _ (by omega), h4]; simp
    unfold parse_request
    rw [if_neg (by omega), if_neg (fun h => h (by simp [encode_request_ipv4])),
      if_pos (by simp [encode_request_ipv4]), if_neg (by omega)]
    unfold encode_request_ipv4
    simp only [List.cons_append, List.nil_append, List.drop_succ_cons, List.drop_zero,
      List.getD_cons_succ, List.getD_cons_zero]
    rw [htake, hhi, hlo, Nat.div_add_mod]
  · -- domain round trip
    have hL : (encode_request_domain cmd name port).getD 4 0 = name.length := by
      simp [encode_request_domain]
    have hassoc : encode_request_domain cmd name port =
        ([SOCKS_VERSION, cmd, RESERVED, ATYP_DOMAIN, name.length] ++ name) ++
          [port / 256, port % 256] := by
      simp [encode_request_domain]
    have htake : (encode_request_domain cmd name port).drop 5 =
        name ++ [port / 256, port % 256] := by
      simp [encode_request_domain]
    have hhi : (encode_request_domain cmd name port).getD (5 + name.length) 0 =
        port / 256 := by
      rw [hassoc, List.getD_append_right _ _ _ _ (by simp; omega)]
      rw [show 5 + name.length -
          ([SOCKS_VERSION, cmd, RESERVED, ATYP_DOMAIN, name.length] ++ name).length = 0
        from by simp; omega]
      simp
    have hlo : (encode_request_domain cmd name port).getD (6 + name.length) 0 =
        port % 256 := by
      rw [hassoc, List.getD_append_right _ _ _ _ (by simp; omega)]
      rw [show 6 + name.length -
          ([SOCKS_VERSION, cmd, RESERVED, ATYP_DOMAIN, name.length] ++ name).length = 1
        from by simp; omega]
      simp
    have hcmd : (encode_request_domain cmd name port).getD 1 0 = cmd := by
      simp [encode_request_domain]
    have hatyp : (encode_request_domain cmd name port).getD 3 0 = ATYP_DOMAIN := by
      simp [encode_request_domain]
    unfold parse_request
    rw [if_neg (by omega), if_neg (fun h => h (by simp [encode_request_domain])),
      if_neg (by simp [encode_request_domain, ATYP_DOMAIN, ATYP_IPV4]),
      if_pos (by simp [encode_request_domain]), if_neg (by omega), hL,
      if_neg (by omega), hhi, hlo, htake, List.take_left, Nat.div_add_mod, hcmd, hatyp]
  · -- IPv6 round trip
    have htake : (ip6 ++ [port / 256, port % 256]).take 16 = ip6 := by
      rw [← h16]; exact List.take_left _ _
    have hhi : (ip6 ++ [port / 256, port % 256]).getD 16 0 = port / 256 := by
      rw [← h16, List.getD_append_right _ _ _ _ (le_refl _)]; simp
    have hlo : (ip6 ++ [port / 256, port % 256]).getD 17 0 = port % 256 := by
      rw [List.getD_append_right _ _ _ _ (by omega), h16]; simp
    unfold parse_request
    rw [if_neg (by omega), if_neg (fun h => h (by simp [encode_request_ipv6])),
      if_neg (by simp [encode_request_ipv6, ATYP_IPV6, ATYP_IPV4]),
      if_neg (by simp [encode_request_ipv6, ATYP_IPV6, ATYP_DOMAIN]),
      if_pos (by simp [encode_request_ipv6]), if_neg (by omega)]
    unfold encode_request_ipv6
    simp only [List.cons_append, List.nil_append, List.drop_succ_cons, List.drop_zero,
      List.getD_cons_succ, List.getD_cons_zero]
    rw [htake, hhi, hlo, Nat.div_add_mod]
  · -- IPv4 truncated by one byte
    have hdl : (encode_request_ipv4 cmd ip4 port).dropLast =
        [SOCKS_VERSION, cmd, RESERVED, ATYP_IPV4] ++ (ip4 ++ [port / 256]) := by
      rw [show encode_request_ipv4 cmd ip4 port =
          ([SOCKS_VERSION, cmd, RESERVED, ATYP_IPV4] ++ (ip4 ++ [port / 256])) ++
            [port % 256] from by simp [encode_request_ipv4]]
      exact List.dropLast_concat
    rw [hdl]
    unfold parse_request
    rw [if_neg (by simp [h4]), if_neg (fun h => h (by simp)),
      if_pos (by simp), if_pos (by simp [h4])]
  · -- domain truncated by one byte
    have hdl : (encode_request_domain cmd name port).dropLast =
        [SOCKS_VERSION, cmd, RESERVED, ATYP_DOMAIN, name.length] ++
          (name ++ [port / 256]) := by
      rw [show encode_request_domain cmd name port =
          ([SOCKS_VERSION, cmd, RESERVED, ATYP_DOMAIN, name.length] ++
            (name ++ [port / 256])) ++ [port % 256] from by simp [encode_request_domain]]
      exact List.dropLast_concat
    have hL2 : ([SOCKS_VERSION, cmd, RESERVED, ATYP_DOMAIN, name.length] ++
        (name ++ [port / 256])).getD 4 0 = name.length := by simp
    rw [hdl]
    unfold parse_request
    rw [if_neg (by simp), if_neg (fun h => h (by simp)),
      if_neg (by simp [ATYP_DOMAIN, ATYP_IPV4]), if_pos (by simp),
      if_neg (by simp), hL2, if_pos (by simp; omega)]
  · -- IPv6 truncated by one byte
    have hdl : (encode_request_ipv6 cmd ip6 port).dropLast =
        [SOCKS_VERSION, cmd, RESERVED, ATYP_IPV6] ++ (ip6 ++ [port / 256]) := by
      rw [show encode_request_ipv6 cmd ip6 port =
          ([SOCKS_VERSION, cmd, RESERVED, ATYP_IPV6] ++ (ip6 ++ [port / 256])) ++
            [port % 256] from by simp [encode_request_ipv6]]
      exact List.dropLast_concat
    rw [hdl]
    unfold parse_request
    rw [if_neg (by simp), if_neg (fun h => h (by simp)),
      if_neg (by simp [ATYP_IPV6, ATYP_IPV4]), if_neg (by simp [ATYP_IPV6, ATYP_DOMAIN]),
      if_pos (by simp), if_pos (by simp [h16])]

/-- Witness for C9 at concrete inputs: the IPv4 round trip for a
CONNECT request to 93.184.216.34:80. -/
theorem c9_witness :
    parse_request (encode_request_ipv4 1 [93, 184, 216, 34] 80) =
      ([], Except.ok (1, ATYP_IPV4, [93, 184, 216, 34], 80)) :=
  (c9_parse_request_round_trip 1 80 [93, 184, 216, 34] [97] (List.replicate 16 0)
    (by decide) (by decide) (by decide) (by decide)).1

/-! ## Username/password sub-negotiation (handlers.py) -/

/-- The username bytes extracted by `authenticate_user_password`:
`data[2:2 + ulen]` with `ulen = data[1]`. -/
def auth_username (data : List Nat) : List Nat :=
  (data.drop 2).take (data.getD 1 0)

/-- The password bytes extracted by `authenticate_user_password`:
`data[plen_start + 1:plen_start + 1 + plen]` with
`plen_start = 2 + ulen` and `plen = data[plen_start]`. -/
def auth_password (data : List Nat) : List Nat :=
  (data.drop (2 + data.getD 1 0 + 1)).take (data.getD (2 + data.getD 1 0) 0)

/-- `authenticate_user_password` from handlers.py.  `data` is the
sub-negotiation request the single `recv` returned; `users` is the
credential store of the auth manager (credentials as byte strings, see
`authenticate`).  Result: (frames sent, authentication result).  The
malformed-input checks of the source (`return False` with no send)
return without sending any frame; only a decoded request reaches the
credential check and the send of the two-byte result frame. -/
def authenticate_user_password (data : List Nat)
    (users : List (List Nat × List Nat)) : List (List Nat) × Bool :=
  if data.length < 3 then ([], false)
  else if data.getD 0 0 ≠ 1 then ([], false)
  else if data.length < 2 + data.getD 1 0 + 1 then ([], false)
  else if data.length < 2 + data.getD 1 0 + 1 + data.getD (2 + data.getD 1 0) 0 then
    ([], false)
  else if authenticate users (auth_username data) (auth_password data) then
    ([[0x01, AUTH_SUCCESS]], true)
  else
    ([[0x01, AUTH_FAILURE]], false)

/-- Well-formedness of an inbound username/password request as checked
by `authenticate_user_password`: at least 3 bytes, sub-negotiation
version byte 1, and the declared username and password lengths within
the available bytes. -/
def auth_request_wf (data : List Nat) : Prop :=
  3 ≤ data.length ∧ data.getD 0 0 = 1 ∧ 2 + data.getD 1 0 + 1 ≤ data.length ∧
    2 + data.getD 1 0 + 1 + data.getD (2 + data.getD 1 0) 0 ≤ data.length

instance (data : List Nat) : Decidable (auth_request_wf data) := by
  unfold auth_request_wf
  infer_instance

/-! ## Theorems: claim C2 -/

/-- C2 counterexample: the claim says a two-byte auth-result frame is
sent even for malformed requests; for the 2-byte request `[1, 0]`
(fewer than 3 bytes) the code returns False having sent no frame at
all. -/
theorem c2_counterexample :
    authenticate_user_password [1, 0] [([97], [98])] = ([], false) := by
  decide

/-- C2 amended: authenticate_user_password sends exactly one two-byte
auth-result frame (version 1, status 0 on success, 1 on failure)
reflecting the credential check iff the inbound request passes the
explicit well-formedness checks; for malformed requests caught by
those checks (fewer than 3 bytes, version byte not 1, or declared
lengths exceeding the available bytes) it returns False without
sending any frame. -/
theorem c2_auth_result_frame
    (data : List Nat) (users : List (List Nat × List Nat)) :
    (auth_request_wf data →
      authenticate_user_password data users =
        ([[0x01, if authenticate users (auth_username data) (auth_password data)
            then AUTH_SUCCESS else AUTH_FAILURE]],
          authenticate users (auth_username data) (auth_password data))) ∧
    (¬ auth_request_wf data →
      authenticate_user_password data users = ([], false)) := by
  constructor
  · intro hwf
    rcases hwf with ⟨hw1, hw2, hw3, hw4⟩
    unfold authenticate_user_password
    rw [if_neg (by omega), if_neg (fun h => h hw2), if_neg (by omega), if_neg (by omega)]
    rcases h : authenticate users (auth_username data) (auth_password data)
    · rw [if_neg (by simp [h])]; simp
    · rw [if_pos rfl]; simp
  · intro hwf
    unfold auth_request_wf at hwf
    unfold authenticate_user_password
    by_cases h1 : data.length < 3
    · rw [if_pos h1]
    · rw [if_neg h1]
      by_cases h2 : data.getD 0 0 = 1
      · rw [if_neg (fun h => h h2)]
        by_cases h3 : data.length < 2 + data.getD 1 0 + 1
        · rw [if_pos h3]
        · rw [if_neg h3]
          rw [if_pos (by omega)]
      · rw [if_pos h2]

/-- Witness for C2 (amended): a well-formed one-byte-username,
one-byte-password request against an empty store (authentication
disabled) yields exactly the success frame. -/
theorem c2_witness :
    authenticate_user_password [1, 1, 97, 1, 98] ([] : List (List Nat × List Nat)) =
      ([[0x01, if authenticate ([] : List (List Nat × List Nat))
          (auth_username [1, 1, 97, 1, 98]) (auth_password [1, 1, 97, 1, 98])
          then AUTH_SUCCESS else AUTH_FAILURE]],
        authenticate ([] : List (List Nat × List Nat))
          (auth_username [1, 1, 97, 1, 98]) (auth_password [1, 1, 97, 1, 98])) :=
  (c2_auth_result_frame [1, 1, 97, 1, 98] []).1 (by decide)

/-! ## Data relay (socks5_server.py, Socks5Server.relay_data) -/

/-- The two sockets the relay pumps between. -/
inductive Sock
  | client
  | remote
deriving DecidableEq

/-- The peer a chunk read from `s` is forwarded to: data from the
client socket goes to the remote socket and conversely. -/
def Sock.other : Sock → Sock
  | .client => .remote
  | .remote => .client

/-- Outcome of one `sock.recv(4096)` attempt inside the relay loop:
a byte chunk (empty means the peer closed), a BlockingIOError (the
loop continues with the next readable socket), or any other exception
raised by the inner try (a read or write error; any bytes involved in
that attempt are not forwarded). -/
inductive RecvOutcome
  | bytes (bs : List Nat)
  | wouldBlock
  | failure
deriving DecidableEq

/-- Observable relay actions: a recv on one socket with its outcome,
or a forward of a byte chunk to the named socket. -/
inductive RelayEvent
  | recv (s : Sock) (o : RecvOutcome)
  | forward (dst : Sock) (bs : List Nat)
deriving DecidableEq

/-- The inner `for sock in readable` loop of relay_data: one select
round is the list of readable sockets in order, each with the outcome
its recv will produce.  Result: the events of the round and whether
the loop returned (zero-length read or error).  A zero-length read
returns immediately: nothing later in the round is read or
forwarded. -/
def relay_round : List (Sock × RecvOutcome) → List RelayEvent × Bool
  | [] => ([], false)
  | (s, RecvOutcome.bytes bs) :: rest =>
      if bs.isEmpty then ([RelayEvent.recv s (RecvOutcome.bytes bs)], true)
      else
        (RelayEvent.recv s (RecvOutcome.bytes bs) ::
          RelayEvent.forward s.other bs :: (relay_round rest).1,
          (relay_round rest).2)
  | (s, RecvOutcome.wouldBlock) :: rest =>
      (RelayEvent.recv s RecvOutcome.wouldBlock :: (relay_round rest).1,
        (relay_round rest).2)
  | (s, RecvOutcome.failure) :: _ => ([RelayEvent.recv s RecvOutcome.failure], true)

/-- The `while True` select loop of relay_data over a schedule of
select rounds.  An empty round is a select timeout with no readiness:
the loop breaks.  Result: all events, and whether the loop terminated
(breaking on timeout, or returning from a round).  `false` means the
supplied schedule ended with the loop still waiting. -/
def relay_loop : List (List (Sock × RecvOutcome)) → List RelayEvent × Bool
  | [] => ([], false)
  | round :: rest =>
      if round.isEmpty then ([], true)
      else if (relay_round round).2 then ((relay_round round).1, true)
      else ((relay_round round).1 ++ (relay_loop rest).1, (relay_loop rest).2)

/-- Which close calls the finally block of relay_data actually ran. -/
structure CloseState where
  remoteCloseAttempted : Bool
  clientCloseAttempted : Bool
deriving DecidableEq

/-- `Socks5Server.relay_data` from socks5_server.py over a schedule of
select rounds.  On every terminating path the finally block runs
`remote_socket.close()` then `client_socket.close()` inside a single
try whose bare except swallows any error: when closing the remote
socket raises (`remoteCloseFails`), the client close statement is
never executed.  `none` means the schedule ended with the loop still
running, so the finally block has not run yet. -/
def relay_data (rounds : List (List (Sock × RecvOutcome))) (remoteCloseFails : Bool) :
    List RelayEvent × Option CloseState :=
  ((relay_loop rounds).1,
    if (relay_loop rounds).2 then
      some { remoteCloseAttempted := true, clientCloseAttempted := !remoteCloseFails }
    else none)

/-! ## Helper lemmas for the relay -/

lemma getLast?_cons_of_ne_nil {α : Type} {l : List α} (a : α) (h : l ≠ []) :
    (a :: l).getLast? = l.getLast? := by
  cases l with
  | nil => exact absurd rfl h
  | cons b t => exact List.getLast?_cons_cons

lemma relay_round_zero_read {r : List (Sock × RecvOutcome)} {s : Sock}
    (h : RelayEvent.recv s (RecvOutcome.bytes []) ∈ (relay_round r).1) :
    (relay_round r).2 = true ∧
      (relay_round r).1.getLast? = some (RelayEvent.recv s (RecvOutcome.bytes [])) := by
  induction r with
  | nil => simp [relay_round] at h
  | cons hd rest ih =>
      obtain ⟨s0, o⟩ := hd
      cases o with
      | bytes bs =>
          by_cases hbs : bs.isEmpty
          · rw [relay_round, if_pos hbs] at h ⊢
            have heq := List.mem_singleton.mp h
            exact ⟨rfl, by rw [← heq]; simp⟩
          · rw [relay_round, if_neg hbs] at h ⊢
            have hne : RelayEvent.recv s (RecvOutcome.bytes []) ≠
                RelayEvent.recv s0 (RecvOutcome.bytes bs) := by
              intro heq
              rw [RelayEvent.recv.injEq, RecvOutcome.bytes.injEq] at heq
              exact hbs (by rw [← heq.2]; rfl)
            have hmem : RelayEvent.recv s (RecvOutcome.bytes []) ∈ (relay_round rest).1 := by
              rcases List.mem_cons.mp h with h1 | h1
              · exact absurd h1 hne
              · rcases List.mem_cons.mp h1 with h2 | h2
                · exact absurd h2 (by intro hx; cases hx)
                · exact h2
            obtain ⟨ht, hl⟩ := ih hmem
            refine ⟨ht, ?_⟩
            rw [List.getLast?_cons_cons,
              getLast?_cons_of_ne_nil _ (List.ne_nil_of_mem hmem), hl]
      | wouldBlock =>
          rw [relay_round] at h ⊢
          have hmem : RelayEvent.recv s (RecvOutcome.bytes []) ∈ (relay_round rest).1 := by
            rcases List.mem_cons.mp h with h1 | h1
            · exact absurd h1 (by intro hx; cases hx)
            · exact h1
          obtain ⟨ht, hl⟩ := ih hmem
          exact ⟨ht, by rw [getLast?_cons_of_ne_nil _ (List.ne_nil_of_mem hmem), hl]⟩
      | failure =>
          rw [relay_round] at h
          have heq := List.mem_singleton.mp h
          cases heq

lemma relay_loop_zero_read {rounds : List (List (Sock × RecvOutcome))} {s : Sock}
    (h : RelayEvent.recv s (RecvOutcome.bytes []) ∈ (relay_loop rounds).1) :
    (relay_loop rounds).2 = true ∧
      (relay_loop rounds).1.getLast? = some (RelayEvent.recv s (RecvOutcome.bytes [])) := by
  induction rounds with
  | nil => simp [relay_loop] at h
  | cons round rest ih =>
      by_cases hr : round.isEmpty
      · rw [relay_loop, if_pos hr] at h
        simp at h
      · by_cases ht : (relay_round round).2
        · rw [relay_loop, if_neg hr, if_pos ht] at h ⊢
          exact ⟨rfl, (relay_round_zero_read h).2⟩
        · rw [relay_loop, if_neg hr, if_neg ht] at h ⊢
          rcases List.mem_append.mp h with h1 | h1
          · exact absurd (relay_round_zero_read h1).1 ht
          · obtain ⟨ht2, hl2⟩ := ih h1
            refine ⟨ht2, ?_⟩
            rw [List.getLast?_append, hl2]
            rfl

/-! ## Theorems: claims C7, C8 -/

/-- C7: in relay_data, once a read on either socket returns zero bytes
(peer closed), the relay terminates immediately: the zero-length recv
is the last event (no further bytes are read from or forwarded to
either side in either direction after it), and both sockets are then
closed (close calls succeeding). -/
theorem c7_zero_read_terminates_relay
    (rounds : List (List (Sock × RecvOutcome))) (s : Sock)
    (h : RelayEvent.recv s (RecvOutcome.bytes []) ∈ (relay_data rounds false).1) :
    (relay_data rounds false).1.getLast? =
      some (RelayEvent.recv s (RecvOutcome.bytes [])) ∧
    (relay_data rounds false).2 =
      some { remoteCloseAttempted := true, clientCloseAttempted := true } := by
  have h' : RelayEvent.recv s (RecvOutcome.bytes []) ∈ (relay_loop rounds).1 := h
  obtain ⟨ht, hl⟩ := relay_loop_zero_read h'
  exact ⟨hl, by simp [relay_data, ht]⟩

/-- Witness for C7: the remote peer closes in the first round and the
relay stops with both sockets closed. -/
theorem c7_witness :
    (relay_data [[(Sock.remote, RecvOutcome.bytes [])]] false).1.getLast? =
      some (RelayEvent.recv Sock.remote (RecvOutcome.bytes [])) ∧
    (relay_data [[(Sock.remote, RecvOutcome.bytes [])]] false).2 =
      some { remoteCloseAttempted := true, clientCloseAttempted := true } :=
  c7_zero_read_terminates_relay [[(Sock.remote, RecvOutcome.bytes [])]] Sock.remote
    (by decide)

/-- C8 counterexample: on the idle-timeout termination path, when
closing the remote socket raises, the bare except swallows the error
and the client socket close is never executed, contradicting the claim
that both sockets are closed even when one close raises. -/
theorem c8_counterexample :
    relay_data [[]] true =
      ([], some { remoteCloseAttempted := true, clientCloseAttempted := false }) := by
  decide

/-- C8 amended: on every termination path of relay_data the finally
block closes the remote socket and then the client socket inside one
error-swallowing try: when closing the remote socket succeeds both are
closed exactly once, but when closing the remote socket raises, the
error is swallowed and the client socket is not closed. -/
theorem c8_both_sockets_closed
    (rounds : List (List (Sock × RecvOutcome))) (remoteCloseFails : Bool)
    (cs : CloseState)
    (h : (relay_data rounds remoteCloseFails).2 = some cs) :
    cs.remoteCloseAttempted = true ∧ cs.clientCloseAttempted = !remoteCloseFails := by
  unfold relay_data at h
  by_cases ht : (relay_loop rounds).2
  · rw [if_pos ht] at h
    cases h
    exact ⟨rfl, rfl⟩
  · rw [if_neg ht] at h
    cases h

/-- Witness for C8 (amended): the timeout path with closes that do not
raise closes both sockets. -/
theorem c8_witness :
    ({ remoteCloseAttempted := true, clientCloseAttempted := true } :
        CloseState).remoteCloseAttempted = true ∧
    ({ remoteCloseAttempted := true, clientCloseAttempted := true } :
        CloseState).clientCloseAttempted = !false :=
  c8_both_sockets_closed [[]] false
    { remoteCloseAttempted := true, clientCloseAttempted := true } (by decide)
